import Mathlib

/-!
Verification of the backtesting and parameter-optimization engine of the
ik-api repository (file backtest.py).  The Python code is shallowly embedded:
prices are modelled as exact rationals, Python dictionaries as structures,
Python exceptions (IndexError from list indexing) as Option, and Python
negative-index semantics are modelled faithfully by pyGet below.  The
round(x, 2) builtin is modelled as exact decimal rounding to 2 places with
round-half-to-even tie-breaking, which is the real-number semantics of the
floating-point rounding performed by the source.
-/

set_option maxRecDepth 10000
set_option maxHeartbeats 1000000

attribute [local semireducible] Rat.add Rat.mul Rat.inv Rat.sub

namespace IK

/-- Bar: one historical price observation.  The engine only ever reads the
"date" and "close" fields of a bar record, so only those are modelled. -/
structure Bar where
  date : String
  close : ℚ
deriving DecidableEq

/-- Action of a trade signal, the "action" key of a trade dict. -/
inductive Action where
  | BUY
  | SELL
deriving DecidableEq

/-- Trade: one signal emitted by moving_average_crossover_strategy, carrying
the triggering bar's date and close and both current moving averages. -/
structure Trade where
  date : String
  action : Action
  price : ℚ
  short_ma : ℚ
  long_ma : ℚ
deriving DecidableEq

/-- Python range(a, b): the integers a, a+1, ..., b-1. -/
def pyRange (a b : ℤ) : List ℤ :=
  (List.range (b - a).toNat).map (fun k => a + k)

/-- Python list indexing data[j]: a non-negative index is used directly, a
negative index counts from the end (data[-1] is the last element), and an
index out of range raises IndexError, modelled as none. -/
def pyGet (data : List Bar) (j : ℤ) : Option Bar :=
  let i : ℤ := if j < 0 then (data.length : ℤ) + j else j
  if 0 ≤ i then data[i.toNat]? else none

/-- Closes of the bars at Python indices a, a+1, ..., b-1; none if any
index access raises. -/
def closesIn (data : List Bar) (a b : ℤ) : Option (List ℚ) :=
  (pyRange a b).mapM (fun j => (pyGet data j).map Bar.close)

/-- One iteration of the loop body of moving_average_crossover_strategy at
index i, threading the (trades, position_open) state. -/
def machStep (data : List Bar) (short_period long_period : ℕ)
    (st : List Trade × Bool) (i : ℤ) : Option (List Trade × Bool) := do
  let short_prices ← closesIn data (i - short_period) i
  let short_ma := short_prices.sum / (short_period : ℚ)
  let long_prices ← closesIn data (i - long_period) i
  let long_ma := long_prices.sum / (long_period : ℚ)
  let prev_short_prices ← closesIn data (i - short_period - 1) (i - 1)
  let prev_short_ma := prev_short_prices.sum / (short_period : ℚ)
  let prev_long_prices ← closesIn data (i - long_period - 1) (i - 1)
  let prev_long_ma := prev_long_prices.sum / (long_period : ℚ)
  if prev_short_ma ≤ prev_long_ma ∧ short_ma > long_ma ∧ st.2 = false then do
    let bar ← pyGet data i
    some (st.1 ++ [⟨bar.date, Action.BUY, bar.close, short_ma, long_ma⟩], true)
  else if prev_short_ma ≥ prev_long_ma ∧ short_ma < long_ma ∧ st.2 = true then do
    let bar ← pyGet data i
    some (st.1 ++ [⟨bar.date, Action.SELL, bar.close, short_ma, long_ma⟩], false)
  else
    some st

/-- BacktestEngine.moving_average_crossover_strategy: iterate i from
long_period to len(data)-1, emitting BUY and SELL signals on moving-average
crossovers; returns none when the Python code would raise IndexError. -/
def moving_average_crossover_strategy (data : List Bar)
    (short_period long_period : ℕ) : Option (List Trade) :=
  if data.length < long_period then some []
  else do
    let st ← (pyRange long_period data.length).foldlM
      (machStep data short_period long_period) ([], false)
    some st.1

/-- Exact-decimal model of Python round(x, 2): round to 2 decimal places,
ties to even. -/
def pyRound2 (q : ℚ) : ℚ :=
  let x := q * 100
  let f : ℤ := Rat.floor x
  let r : ℚ := x - (f : ℚ)
  let n : ℤ :=
    if r < 1/2 then f
    else if 1/2 < r then f + 1
    else if f % 2 = 0 then f else f + 1
  (n : ℚ) / 100

/-- Accumulator of the trade-simulation loop in calculate_performance. -/
structure PerfAcc where
  capital : ℚ
  shares : ℚ
  profitable_trades : ℕ
  losing_trades : ℕ
deriving DecidableEq

/-- One iteration of the trade loop in calculate_performance. -/
def perfStep (initial_capital : ℚ) (acc : PerfAcc) (trade : Trade) : PerfAcc :=
  match trade.action with
  | Action.BUY =>
    { acc with shares := acc.capital / trade.price, capital := 0 }
  | Action.SELL =>
    if 0 < acc.shares then
      let sell_value := acc.shares * trade.price
      if initial_capital < sell_value then
        { capital := sell_value, shares := 0,
          profitable_trades := acc.profitable_trades + 1,
          losing_trades := acc.losing_trades }
      else
        { capital := sell_value, shares := 0,
          profitable_trades := acc.profitable_trades,
          losing_trades := acc.losing_trades + 1 }
    else acc

/-- Price of trades[-1]; only consulted on a nonempty trade list (the
degenerate default is never reached by calculate_performance). -/
def lastPrice (trades : List Trade) : ℚ :=
  ((trades.getLast?).map Trade.price).getD 0

/-- PerformanceReport: the dict returned by calculate_performance.  The
fields completed_trades, initial_capital and total_return_dollars are keys
that only appear in the branch for 2 or more trades, hence Option. -/
structure PerformanceReport where
  total_trades : ℕ
  completed_trades : Option ℕ
  profitable_trades : ℕ
  losing_trades : ℕ
  win_rate : ℚ
  initial_capital : Option ℚ
  final_capital : ℚ
  total_return : ℚ
  total_return_dollars : Option ℚ
deriving DecidableEq

/-- BacktestEngine.calculate_performance: simulate an all-in single-position
strategy over the trade list and report aggregate metrics. -/
def calculate_performance (trades : List Trade)
    (initial_capital : ℚ) : PerformanceReport :=
  if trades.length < 2 then
    { total_trades := 0, completed_trades := none, profitable_trades := 0,
      losing_trades := 0, win_rate := 0, initial_capital := none,
      final_capital := initial_capital, total_return := 0,
      total_return_dollars := none }
  else
    let fin := trades.foldl (perfStep initial_capital) ⟨initial_capital, 0, 0, 0⟩
    let capital :=
      if 0 < fin.shares ∧ trades ≠ [] then fin.shares * lastPrice trades
      else fin.capital
    let total_completed_trades := fin.profitable_trades + fin.losing_trades
    let total_return := ((capital - initial_capital) / initial_capital) * 100
    { total_trades := (trades.filter (fun t => t.action == Action.BUY)).length,
      completed_trades := some total_completed_trades,
      profitable_trades := fin.profitable_trades,
      losing_trades := fin.losing_trades,
      win_rate :=
        if 0 < total_completed_trades then
          ((fin.profitable_trades : ℚ) / (total_completed_trades : ℚ)) * 100
        else 0,
      initial_capital := some initial_capital,
      final_capital := pyRound2 capital,
      total_return := pyRound2 total_return,
      total_return_dollars := pyRound2 (capital - initial_capital) }

/-- Python int() applied to a rational: truncation toward zero. -/
def pyInt (q : ℚ) : ℤ :=
  if 0 ≤ q then Rat.floor q else -(Rat.floor (-q))

/-- Index at which BacktestEngine.__init__ splits the data:
int(len(data) * train_split). -/
def split_index (data : List Bar) (train_split : ℚ) : ℕ :=
  (pyInt ((data.length : ℚ) * train_split)).toNat

/-- BacktestEngine.train_data: data[:split_index]. -/
def train_data (data : List Bar) (train_split : ℚ) : List Bar :=
  data.take (split_index data train_split)

/-- BacktestEngine.validation_data: data[split_index:]. -/
def validation_data (data : List Bar) (train_split : ℚ) : List Bar :=
  data.drop (split_index data train_split)

/-- DataSummary: the dict returned by BacktestEngine.get_data_summary. -/
structure DataSummary where
  total_data_points : ℕ
  train_data_points : ℕ
  validation_data_points : ℕ
  train_start : Option String
  train_end : Option String
  validation_start : Option String
  validation_end : Option String
  train_split_percentage : ℚ
deriving DecidableEq

/-- BacktestEngine.get_data_summary. -/
def get_data_summary (data : List Bar) (train_split : ℚ) : DataSummary :=
  let train := train_data data train_split
  let val := validation_data data train_split
  { total_data_points := data.length
    train_data_points := train.length
    validation_data_points := val.length
    train_start := train.head?.map Bar.date
    train_end := train.getLast?.map Bar.date
    validation_start := val.head?.map Bar.date
    validation_end := val.getLast?.map Bar.date
    train_split_percentage := train_split * 100 }

/-- Successful result dict of BacktestEngine.run_backtest. -/
structure BacktestOk where
  strategy : String
  short_period : ℕ
  long_period : ℕ
  initial_capital : ℚ
  data_summary : DataSummary
  train_trades : List Trade
  train_performance : PerformanceReport
  validation_trades : List Trade
  validation_performance : PerformanceReport
  train_return : ℚ
  validation_return : ℚ
  performance_difference : ℚ
deriving DecidableEq

/-- Result of BacktestEngine.run_backtest: either the backtest dict or the
structured error dict for an unknown strategy name. -/
inductive BacktestResult where
  | ok (r : BacktestOk)
  | error (msg : String)
deriving DecidableEq

/-- BacktestEngine.run_backtest: run the strategy on the training and
validation slices and assemble the comparison report; an unrecognized
strategy name yields the structured error value.  The outer Option models
propagation of an IndexError raised by the strategy. -/
def run_backtest (data : List Bar) (train_split : ℚ) (strategy_name : String)
    (short_period long_period : ℕ) (initial_capital : ℚ) :
    Option BacktestResult :=
  if strategy_name = "moving_average_crossover" then do
    let train_trades ← moving_average_crossover_strategy
      (train_data data train_split) short_period long_period
    let validation_trades ← moving_average_crossover_strategy
      (validation_data data train_split) short_period long_period
    let train_performance := calculate_performance train_trades initial_capital
    let validation_performance :=
      calculate_performance validation_trades initial_capital
    some (BacktestResult.ok
      { strategy := strategy_name
        short_period := short_period
        long_period := long_period
        initial_capital := initial_capital
        data_summary := get_data_summary data train_split
        train_trades := train_trades
        train_performance := train_performance
        validation_trades := validation_trades
        validation_performance := validation_performance
        train_return := train_performance.total_return
        validation_return := validation_performance.total_return
        performance_difference := pyRound2
          (train_performance.total_return - validation_performance.total_return) })
  else
    some (BacktestResult.error ("Unknown strategy: " ++ strategy_name))

/-- One entry of the optimizer's results list; the field ret is the dict key
named return in the source (a Lean keyword). -/
structure OptResult where
  short_period : ℕ
  long_period : ℕ
  ret : ℚ
  win_rate : ℚ
  total_trades : ℕ
deriving DecidableEq

/-- The best_params dict tracked by the optimizer grid search. -/
structure BestParams where
  short_period : ℕ
  long_period : ℕ
  performance : PerformanceReport
deriving DecidableEq

/-- State threaded through the optimizer's grid loop: best_params (None at
start), best_return (none models float(-inf)), and the results list. -/
structure OptState where
  best_params : Option BestParams
  best_return : Option ℚ
  results : List OptResult
deriving DecidableEq

/-- Comparison against best_return, where none stands for float(-inf): every
rational is greater than -inf. -/
def bgt : Option ℚ → ℚ → Bool
  | none, _ => true
  | some b, x => decide (b < x)

/-- Candidate short periods of the grid search, in iteration order. -/
def shortCandidates : List ℕ := [5, 10, 15, 20]

/-- Candidate long periods of the grid search, in iteration order. -/
def longCandidates : List ℕ := [20, 30, 50, 100]

/-- The 4 by 4 grid in the nested-loop iteration order of
find_optimal_params. -/
def maGrid : List (ℕ × ℕ) :=
  (shortCandidates.map (fun s => longCandidates.map (fun l => (s, l)))).flatten

/-- The result dict recorded by the optimizer for one evaluated pair. -/
def optResultOf (p : ℕ × ℕ) (performance : PerformanceReport) : OptResult :=
  { short_period := p.1, long_period := p.2,
    ret := performance.total_return, win_rate := performance.win_rate,
    total_trades := performance.total_trades }

/-- Body of the optimizer's grid loop for one (short, long) pair: skip the
pair when short is at least long, otherwise run the strategy on the training
slice, record the result and update the running best on a strictly greater
total_return (the performance of the pair is written out at each use site;
it is one pure value in the source). -/
def optStep (train : List Bar) (initial_capital : ℚ) (st : OptState)
    (p : ℕ × ℕ) : Option OptState :=
  if p.2 ≤ p.1 then some st
  else do
    let trades ← moving_average_crossover_strategy train p.1 p.2
    if bgt st.best_return (calculate_performance trades initial_capital).total_return then
      some { best_params := some
               { short_period := p.1, long_period := p.2,
                 performance := calculate_performance trades initial_capital }
             best_return := some (calculate_performance trades initial_capital).total_return
             results := st.results
               ++ [optResultOf p (calculate_performance trades initial_capital)] }
    else
      some { st with results := st.results
               ++ [optResultOf p (calculate_performance trades initial_capital)] }

/-- Final loop state of find_optimal_params on the given data. -/
def find_optimal_state (data : List Bar) (train_split initial_capital : ℚ) :
    Option OptState :=
  maGrid.foldlM (optStep (train_data data train_split) initial_capital)
    { best_params := none, best_return := none, results := [] }

/-- Stable insertion into a list sorted by descending ret, keeping earlier
elements first among equal keys; models sorted(..., reverse=True). -/
def insDesc (x : OptResult) : List OptResult → List OptResult
  | [] => [x]
  | y :: ys => if y.ret ≤ x.ret then x :: y :: ys else y :: insDesc x ys

/-- Stable descending sort by the ret field, as Python sorted with
key lambda x: x of the return field and reverse=True. -/
def sortDesc (l : List OptResult) : List OptResult :=
  l.foldr insDesc []

/-- Output dict of find_optimal_params (the HTTP file metadata keys are
outside the engine and not modelled). -/
structure OptimizationOutput where
  best_parameters : Option BestParams
  all_results : List OptResult
  data_summary : DataSummary
deriving DecidableEq

/-- The optimizer find_optimal_params: grid search over maGrid on the
training slice only, returning the best parameters, the ranked list of all
evaluated pairs and the data summary. -/
def find_optimal_params (data : List Bar) (train_split initial_capital : ℚ) :
    Option OptimizationOutput :=
  (find_optimal_state data train_split initial_capital).map
    (fun st =>
      { best_parameters := st.best_params
        all_results := sortDesc st.results
        data_summary := get_data_summary data train_split })

/-- Monotone 40-bar series: close(i) = 100 + i for i = 0..39. -/
def mono40 : List Bar :=
  (List.range 40).map (fun i => { date := toString i, close := 100 + (i : ℚ) })

/-- The single trade emitted on mono40 with periods 5 and 10: a BUY at bar
index 10 (close 110), short MA 107, long MA 104.5. -/
def c1Trade : Trade :=
  { date := "10", action := Action.BUY, price := 110,
    short_ma := 107, long_ma := 209/2 }

/-- Trade list produced on mono40 with periods 5 and 10. -/
def c1Trades : List Trade :=
  (moving_average_crossover_strategy mono40 5 10).getD []

/-- The mono40 series with only the last close changed to 0; used to show
that the signal emitted at index 10 reads the last bar of the series. -/
def mono40Last0 : List Bar :=
  (List.range 40).map
    (fun i => { date := toString i, close := if i = 39 then 0 else 100 + (i : ℚ) })

/-- A two-bar series used as a concrete split witness. -/
def demoBars : List Bar := [{ date := "a", close := 1 }, { date := "b", close := 2 }]

/-- Two-bar series sharing its first bar with demoBars but differing in the
second; under a one-half split both have training slice [first bar]. -/
def demoBarsAlt : List Bar := [{ date := "a", close := 1 }, { date := "c", close := 7 }]

/-- A BUY-then-SELL trade pair used as a concrete performance witness. -/
def demoTrades : List Trade :=
  [⟨"x", Action.BUY, 100, 0, 0⟩, ⟨"y", Action.SELL, 110, 0, 0⟩]

/-- BUY leg of the round-trip scenario of the performance calculator. -/
def c5Buy (p : ℚ) : Trade := ⟨"b", Action.BUY, p, 0, 0⟩

/-- SELL leg of the round-trip scenario of the performance calculator. -/
def c5Sell (p : ℚ) : Trade := ⟨"s", Action.SELL, p, 0, 0⟩

/-- The alternating action sequence of length n that starts with BUY:
entry k is BUY for even k and SELL for odd k. -/
def altSeq : ℕ → List Action
  | 0 => []
  | n + 1 => altSeq n ++ [if n % 2 = 0 then Action.BUY else Action.SELL]

/-- Invariant of the signal-generator loop state: the emitted trades
alternate BUY, SELL, BUY, ... and position_open records whether the number
of emitted trades is odd (a position is open after an odd number). -/
def AltInv (st : List Trade × Bool) : Prop :=
  st.1.map Trade.action = altSeq st.1.length ∧
  st.2 = decide (st.1.length % 2 = 1)

/-- Invariant of the optimizer loop state: either nothing has been evaluated
yet, or best_params and best_return hold the first evaluated pair achieving
the running maximum total_return: every earlier recorded result is strictly
below it and every later one is at most it. -/
def OptInv (st : OptState) : Prop :=
  (st.best_params = none ∧ st.best_return = none ∧ st.results = []) ∨
  (∃ bp l1 l2, st.best_params = some bp ∧
    st.best_return = some bp.performance.total_return ∧
    st.results = l1 ++ (⟨bp.short_period, bp.long_period,
      bp.performance.total_return, bp.performance.win_rate,
      bp.performance.total_trades⟩ : OptResult) :: l2 ∧
    (∀ r ∈ l1, r.ret < bp.performance.total_return) ∧
    (∀ r ∈ l2, r.ret ≤ bp.performance.total_return))

/-- The zero-activity report for capital 10000. -/
def perf0 : PerformanceReport :=
  { total_trades := 0, completed_trades := none, profitable_trades := 0,
    losing_trades := 0, win_rate := 0, initial_capital := none,
    final_capital := 10000, total_return := 0, total_return_dollars := none }

/-- The optimizer loop state reached on an empty bar series with capital
10000: every pair with short less than long is evaluated to the
zero-activity report (return 0) and the first pair (5, 20) is kept as best. -/
def optDemoState : OptState :=
  { best_params := some ⟨5, 20, perf0⟩, best_return := some 0,
    results := [⟨5, 20, 0, 0, 0⟩, ⟨5, 30, 0, 0, 0⟩, ⟨5, 50, 0, 0, 0⟩,
      ⟨5, 100, 0, 0, 0⟩, ⟨10, 20, 0, 0, 0⟩, ⟨10, 30, 0, 0, 0⟩,
      ⟨10, 50, 0, 0, 0⟩, ⟨10, 100, 0, 0, 0⟩, ⟨15, 20, 0, 0, 0⟩,
      ⟨15, 30, 0, 0, 0⟩, ⟨15, 50, 0, 0, 0⟩, ⟨15, 100, 0, 0, 0⟩,
      ⟨20, 30, 0, 0, 0⟩, ⟨20, 50, 0, 0, 0⟩, ⟨20, 100, 0, 0, 0⟩] }

/-- Claim C1, counterexample: on the 40-bar linear series with periods 5/10
and capital 10000, the report does not have total_trades = 1 and its
final_capital is the untouched initial capital 10000, not an unrealized
mark at the last close 139; the single-BUY trade list falls into the
degenerate branch of calculate_performance. -/
theorem c1_report_refutes_spec_scenario :
    (calculate_performance c1Trades 10000).total_trades ≠ 1 ∧
    (calculate_performance c1Trades 10000).final_capital = 10000 := by decide

/-- Claim C1, amended: the Signal Generator on the 40-bar linear series with
short_period 5 and long_period 10 emits exactly one BUY (at index 10, close
110) and no SELL, and the Performance Calculator, receiving a single-entry
signal sequence, returns the zero-activity report: total_trades = 0,
win_rate = 0, final_capital = 10000, with the completed_trades,
initial_capital and total_return_dollars keys absent. -/
theorem c1_end_to_end_actual :
    moving_average_crossover_strategy mono40 5 10 = some [c1Trade] ∧
    c1Trade.action = Action.BUY ∧
    calculate_performance c1Trades 10000 =
      { total_trades := 0, completed_trades := none, profitable_trades := 0,
        losing_trades := 0, win_rate := 0, initial_capital := none,
        final_capital := 10000, total_return := 0,
        total_return_dollars := none } := by decide

/-- Claim C2, counterexample: a sequence containing exactly one BUY yields a
report whose total_trades differs from the number of BUY entries (the code
returns 0 from its fewer-than-two-trades branch, while the sequence has one
BUY). -/
theorem c2_singleton_buy_not_counted :
    (calculate_performance [⟨"d", Action.BUY, 100, 0, 0⟩] 10000).total_trades
      ≠ (([⟨"d", Action.BUY, 100, 0, 0⟩] : List Trade).filter
          (fun t => t.action == Action.BUY)).length := by decide

/-- Claim C2, amended: for every signal sequence with at least two entries
and every positive initial capital, total_trades equals the number of BUY
entries; a sequence with fewer than two entries always reports
total_trades = 0. -/
theorem c2_total_trades_counts_buys (trades : List Trade) (cap : ℚ)
    (hcap : 0 < cap) :
    (2 ≤ trades.length →
      (calculate_performance trades cap).total_trades
        = (trades.filter (fun t => t.action == Action.BUY)).length) ∧
    (trades.length < 2 → (calculate_performance trades cap).total_trades = 0) := by
  constructor
  · intro h
    rw [calculate_performance, if_neg (by omega)]
  · intro h
    rw [calculate_performance, if_pos h]

/-- Witness for c2_total_trades_counts_buys at a concrete two-trade list. -/
theorem c2_total_trades_counts_buys_witness :
    (0:ℚ) < 10000 ∧ 2 ≤ demoTrades.length ∧
    (calculate_performance demoTrades 10000).total_trades
      = (demoTrades.filter (fun t => t.action == Action.BUY)).length :=
  ⟨by decide, by decide,
    (c2_total_trades_counts_buys demoTrades 10000
      (by decide)).1 (by decide)⟩

/-- Claim C3, code bug: the signal emitted at the first loop index
i = long_period depends on the last bar of the series, which no window of
past bars can contain.  On the 40-bar linear series the code emits a BUY at
index 10 (the previous long window is Python range(-1, 9), and data[-1] is
the last bar, close 139), while on the same series with only the final close
changed to 0 no signal at all is emitted. -/
theorem c3_first_iteration_reads_last_bar :
    (moving_average_crossover_strategy mono40 5 10).map
        (fun ts => ts.map Trade.action) = some [Action.BUY] ∧
    moving_average_crossover_strategy mono40Last0 5 10 = some [] := by decide

/-- Claim C4: for every bar series and split fraction f with 0 < f and
f at most 1, the split takes the floor(N*f)-bar prefix as training data and
the rest as validation data; lengths add up, the training slice is exactly
the original prefix, and concatenating the slices restores the series in
chronological order. -/
theorem c4_split_spec (data : List Bar) (f : ℚ) (h1 : 0 < f) (h2 : f ≤ 1) :
    train_data data f = data.take (⌊(data.length : ℚ) * f⌋).toNat ∧
    validation_data data f = data.drop (⌊(data.length : ℚ) * f⌋).toNat ∧
    (train_data data f).length + (validation_data data f).length = data.length ∧
    train_data data f = data.take (train_data data f).length ∧
    train_data data f ++ validation_data data f = data := by
  have hq : (0:ℚ) ≤ (data.length : ℚ) * f :=
    mul_nonneg (Nat.cast_nonneg _) h1.le
  have hp : split_index data f = (⌊(data.length : ℚ) * f⌋).toNat := by
    rw [split_index, pyInt, if_pos hq, Rat.floor_def', Rat.floor_def]
  refine ⟨by rw [train_data, hp], by rw [validation_data, hp], ?_, ?_, ?_⟩
  · rw [train_data, validation_data, List.length_take, List.length_drop]
    omega
  · rw [train_data, List.length_take]
    rcases le_or_lt (split_index data f) data.length with hk | hk
    · rw [min_eq_left hk]
    · rw [min_eq_right hk.le, List.take_length, List.take_of_length_le hk.le]
  · rw [train_data, validation_data, List.take_append_drop]

/-- Witness for c4_split_spec at a concrete two-bar series and f = 1/2. -/
theorem c4_split_spec_witness :
    (0:ℚ) < 1/2 ∧ (1/2:ℚ) ≤ 1 ∧
    train_data demoBars (1/2) ++ validation_data demoBars (1/2) = demoBars :=
  ⟨by decide, by decide,
    (c4_split_spec demoBars (1/2) (by decide)
      (by decide)).2.2.2.2⟩

/-- Claim C5, counterexample: a BUY at price 3 followed by a SELL at price 1
with capital 10000 yields final_capital 3333.33 (the code rounds to 2
decimals), not exactly 10000 * (1/3). -/
theorem c5_final_capital_is_rounded :
    (calculate_performance [c5Buy 3, c5Sell 1] 10000).final_capital
      ≠ 10000 * ((1:ℚ) / 3) := by decide

/-- Claim C5, amended: a BUY at P1 followed by a SELL at P2 with positive
capital C yields final_capital equal to C * (P2 / P1) rounded to 2 decimals,
and total_return equal to (P2 / P1 - 1) * 100 rounded to 2 decimals. -/
theorem c5_round_trip (P1 P2 C : ℚ) (h1 : 0 < P1) (h2 : 0 < P2) (hC : 0 < C) :
    (calculate_performance [c5Buy P1, c5Sell P2] C).final_capital
        = pyRound2 (C * (P2 / P1)) ∧
    (calculate_performance [c5Buy P1, c5Sell P2] C).total_return
        = pyRound2 ((P2 / P1 - 1) * 100) := by
  have hsh : (0:ℚ) < C / P1 := div_pos hC h1
  have e1 : perfStep C ⟨C, 0, 0, 0⟩ (c5Buy P1) = ⟨0, C / P1, 0, 0⟩ := rfl
  have e2 : perfStep C ⟨0, C / P1, 0, 0⟩ (c5Sell P2)
      = if C < C / P1 * P2 then ⟨C / P1 * P2, 0, 1, 0⟩
        else ⟨C / P1 * P2, 0, 0, 1⟩ := by
    simp only [perfStep, c5Sell]
    rw [if_pos hsh]
  have hfold : [c5Buy P1, c5Sell P2].foldl (perfStep C) ⟨C, 0, 0, 0⟩
      = if C < C / P1 * P2 then ⟨C / P1 * P2, 0, 1, 0⟩
        else ⟨C / P1 * P2, 0, 0, 1⟩ := by
    calc [c5Buy P1, c5Sell P2].foldl (perfStep C) ⟨C, 0, 0, 0⟩
        = perfStep C (perfStep C ⟨C, 0, 0, 0⟩ (c5Buy P1)) (c5Sell P2) := rfl
      _ = _ := by rw [e1, e2]
  have hcapval : C / P1 * P2 = C * (P2 / P1) := by ring
  have hsub : C * (P2 / P1) - C = (P2 / P1 - 1) * C := by ring
  have hretval : (C * (P2 / P1) - C) / C * 100 = (P2 / P1 - 1) * 100 := by
    rw [hsub, mul_div_assoc, div_self hC.ne', mul_one]
  constructor <;>
  · by_cases hpf : C < C / P1 * P2
    · have hfold2 : [c5Buy P1, c5Sell P2].foldl (perfStep C) ⟨C, 0, 0, 0⟩
          = (⟨C / P1 * P2, 0, 1, 0⟩ : PerfAcc) := by rw [hfold, if_pos hpf]
      simp only [calculate_performance, List.length_cons, List.length_nil,
        Nat.reduceAdd, hfold2]
      rw [if_neg (Nat.lt_irrefl 2)]
      simp only [lt_self_iff_false, false_and, ite_false, if_false,
        hcapval, hretval]
    · have hfold2 : [c5Buy P1, c5Sell P2].foldl (perfStep C) ⟨C, 0, 0, 0⟩
          = (⟨C / P1 * P2, 0, 0, 1⟩ : PerfAcc) := by rw [hfold, if_neg hpf]
      simp only [calculate_performance, List.length_cons, List.length_nil,
        Nat.reduceAdd, hfold2]
      rw [if_neg (Nat.lt_irrefl 2)]
      simp only [lt_self_iff_false, false_and, ite_false, if_false,
        hcapval, hretval]

/-- Claim C9: an unrecognized strategy name makes run_backtest return the
structured error value, for every bar series and parameter choice, with no
strategy or performance computation involved in the result. -/
theorem c9_unknown_strategy_error (data : List Bar) (f : ℚ) (name : String)
    (sp lp : ℕ) (cap : ℚ) (h : name ≠ "moving_average_crossover") :
    run_backtest data f name sp lp cap
      = some (BacktestResult.error ("Unknown strategy: " ++ name)) := by
  rw [run_backtest, if_neg h]

/-- Witness for c9_unknown_strategy_error at the concrete name "sma". -/
theorem c9_unknown_strategy_error_witness :
    "sma" ≠ "moving_average_crossover" ∧
    run_backtest [] 1 "sma" 10 30 10000
      = some (BacktestResult.error ("Unknown strategy: " ++ "sma")) :=
  ⟨by decide, c9_unknown_strategy_error [] 1 "sma" 10 30 10000 (by decide)⟩

/-- Claim C10: the report omits the completed_trades, initial_capital and
total_return_dollars keys exactly when the signal sequence has fewer than
two entries; for two or more entries all three keys are present. -/
theorem c10_report_shape (trades : List Trade) (cap : ℚ) :
    ((calculate_performance trades cap).completed_trades = none ∧
      (calculate_performance trades cap).initial_capital = none ∧
      (calculate_performance trades cap).total_return_dollars = none)
      ↔ trades.length < 2 := by
  by_cases h : trades.length < 2
  · simp only [calculate_performance, if_pos h]
    simp [h]
  · simp only [calculate_performance, if_neg h]
    simp [h]

/-- Unfolding equation of altSeq at a successor length. -/
theorem altSeq_succ (n : ℕ) :
    altSeq (n + 1) = altSeq n ++ [if n % 2 = 0 then Action.BUY else Action.SELL] :=
  rfl

/-- One loop iteration of the signal generator preserves the alternation
invariant. -/
theorem machStep_alt {data : List Bar} {sp lp : ℕ} {st st' : List Trade × Bool}
    {i : ℤ} (h : machStep data sp lp st i = some st') (hi : AltInv st) :
    AltInv st' := by
  rw [machStep] at h
  simp only [Option.bind_eq_bind, Option.bind_eq_some, Option.some.injEq] at h
  obtain ⟨sp_pr, hsp_pr, lp_pr, hlp_pr, psp_pr, hpsp_pr, plp_pr, hplp_pr, h⟩ := h
  split at h
  case isTrue hc =>
    simp only [Option.bind_eq_bind, Option.bind_eq_some, Option.some.injEq] at h
    obtain ⟨bar, hbar, h⟩ := h
    subst h
    have hev : st.1.length % 2 = 0 := by
      have hd := hc.2.2 ▸ hi.2
      have hne : ¬ (st.1.length % 2 = 1) := of_decide_eq_false hd.symm
      omega
    constructor
    · show (st.1 ++ [_]).map Trade.action = altSeq (st.1 ++ [_]).length
      rw [List.map_append, hi.1, List.length_append, List.length_singleton,
        altSeq_succ, if_pos hev]
      rfl
    · show true = decide ((st.1 ++ [_]).length % 2 = 1)
      rw [List.length_append, List.length_singleton]
      have hodd : (st.1.length + 1) % 2 = 1 := by omega
      simp [hodd]
  case isFalse =>
    split at h
    case isTrue hc =>
      simp only [Option.bind_eq_bind, Option.bind_eq_some, Option.some.injEq] at h
      obtain ⟨bar, hbar, h⟩ := h
      subst h
      have hodd : st.1.length % 2 = 1 := by
        have hd := hc.2.2 ▸ hi.2
        exact of_decide_eq_true hd.symm
      constructor
      · show (st.1 ++ [_]).map Trade.action = altSeq (st.1 ++ [_]).length
        rw [List.map_append, hi.1, List.length_append, List.length_singleton,
          altSeq_succ, if_neg (by omega)]
        rfl
      · show false = decide ((st.1 ++ [_]).length % 2 = 1)
        rw [List.length_append, List.length_singleton]
        have hev : (st.1.length + 1) % 2 = 0 := by omega
        simp [hev]
    case isFalse =>
      exact Option.some.inj h ▸ hi

/-- The signal-generator loop preserves the alternation invariant. -/
theorem foldlM_machStep_alt (data : List Bar) (sp lp : ℕ) :
    ∀ (idxs : List ℤ) (st st' : List Trade × Bool),
      idxs.foldlM (machStep data sp lp) st = some st' → AltInv st → AltInv st' := by
  intro idxs
  induction idxs with
  | nil =>
    intro st st' h hi
    rw [List.foldlM_nil] at h
    cases h
    exact hi
  | cons i rest ih =>
    intro st st' h hi
    rw [List.foldlM_cons] at h
    simp only [Option.bind_eq_bind, Option.bind_eq_some] at h
    obtain ⟨st1, h1, h2⟩ := h
    exact ih st1 st' h2 (machStep_alt h1 hi)

/-- Claim C8: every signal sequence the generator returns alternates
starting with BUY: its k-th action is BUY for even k and SELL for odd k, so
there are no two consecutive BUYs, no SELL before the first BUY, and at most
one position is open at any point. -/
theorem c8_signals_alternate (data : List Bar) (sp lp : ℕ) (hsp : 0 < sp)
    (hlp : 0 < lp) (trades : List Trade)
    (h : moving_average_crossover_strategy data sp lp = some trades) :
    trades.map Trade.action = altSeq trades.length := by
  rw [moving_average_crossover_strategy] at h
  split at h
  · cases h
    rfl
  · simp only [Option.bind_eq_bind, Option.bind_eq_some, Option.some.injEq] at h
    obtain ⟨st, hst, h⟩ := h
    cases h
    exact (foldlM_machStep_alt data sp lp _ _ _ hst ⟨rfl, rfl⟩).1

/-- Witness for c8_signals_alternate on the 40-bar linear series. -/
theorem c8_signals_alternate_witness :
    0 < 5 ∧ 0 < 10 ∧ c1Trades.map Trade.action = altSeq c1Trades.length :=
  ⟨by decide, by decide,
    c8_signals_alternate mono40 5 10 (by decide) (by decide) c1Trades (by decide)⟩

/-- Witness for c5_round_trip at P1 = 100, P2 = 110, C = 10000. -/
theorem c5_round_trip_witness :
    (0:ℚ) < 100 ∧ (0:ℚ) < 110 ∧ (0:ℚ) < 10000 ∧
    (calculate_performance [c5Buy 100, c5Sell 110] 10000).final_capital
      = pyRound2 (10000 * ((110:ℚ) / 100)) :=
  ⟨by decide, by decide, by decide,
    (c5_round_trip 100 110 10000 (by decide) (by decide) (by decide)).1⟩

/-- Every recorded result is at most the tracked best return. -/
theorem optInv_le {st : OptState} (hinv : OptInv st) {b : ℚ}
    (hb : st.best_return = some b) : ∀ r ∈ st.results, r.ret ≤ b := by
  rcases hinv with ⟨h1, h2, h3⟩ | ⟨bp, l1, l2, hbp, hbr, hres, hl1, hl2⟩
  · intro r hr
    rw [h3] at hr
    exact absurd hr (List.not_mem_nil r)
  · rw [hbr] at hb
    injection hb with hb
    subst hb
    intro r hr
    rw [hres] at hr
    rcases List.mem_append.1 hr with hr | hr
    · exact (hl1 r hr).le
    · rcases List.mem_cons.1 hr with rfl | hr
      · exact le_refl _
      · exact hl2 r hr

/-- One grid iteration of the optimizer preserves the best-tracking
invariant. -/
theorem optStep_inv {train : List Bar} {cap : ℚ} {st st' : OptState}
    {p : ℕ × ℕ} (h : optStep train cap st p = some st') (hinv : OptInv st) :
    OptInv st' := by
  rw [optStep] at h
  split at h
  · exact Option.some.inj h ▸ hinv
  · simp only [Option.bind_eq_bind, Option.bind_eq_some, Option.some.injEq] at h
    obtain ⟨trades, htr, h⟩ := h
    split at h
    case isTrue hc =>
      rw [Option.some.injEq] at h
      subst h
      refine Or.inr ⟨⟨p.1, p.2, calculate_performance trades cap⟩,
        st.results, [], rfl, rfl, rfl, ?_, ?_⟩
      · intro r hr
        rcases hinv with ⟨h1, h2, h3⟩ | ⟨bp0, l1, l2, hbp0, hbr0, hres0, hl1, hl2⟩
        · rw [h3] at hr
          exact absurd hr (List.not_mem_nil r)
        · have hle := optInv_le
            (Or.inr ⟨bp0, l1, l2, hbp0, hbr0, hres0, hl1, hl2⟩) hbr0 r hr
          rw [hbr0] at hc
          exact lt_of_le_of_lt hle (of_decide_eq_true hc)
      · intro r hr
        exact absurd hr (List.not_mem_nil r)
    case isFalse hc =>
      rw [Option.some.injEq] at h
      subst h
      rcases hinv with ⟨h1, h2, h3⟩ | ⟨bp0, l1, l2, hbp0, hbr0, hres0, hl1, hl2⟩
      · rw [h2] at hc
        exact absurd rfl hc
      · rw [hbr0] at hc
        have hnlt : ¬ (bp0.performance.total_return
            < (calculate_performance trades cap).total_return) :=
          fun hlt => hc (by simp [bgt, hlt])
        refine Or.inr ⟨bp0, l1,
          l2 ++ [optResultOf p (calculate_performance trades cap)],
          hbp0, hbr0, ?_, hl1, ?_⟩
        · show st.results ++ _ = _
          rw [hres0, List.append_assoc, List.cons_append]
        · intro r hr
          rcases List.mem_append.1 hr with hr | hr
          · exact hl2 r hr
          · rw [List.mem_singleton.1 hr]
            exact not_lt.1 hnlt

/-- The optimizer grid loop preserves the best-tracking invariant. -/
theorem foldlM_optStep_inv (train : List Bar) (cap : ℚ) :
    ∀ (ps : List (ℕ × ℕ)) (st st' : OptState),
      ps.foldlM (optStep train cap) st = some st' → OptInv st → OptInv st' := by
  intro ps
  induction ps with
  | nil =>
    intro st st' h hi
    rw [List.foldlM_nil] at h
    exact Option.some.inj h ▸ hi
  | cons p rest ih =>
    intro st st' h hi
    rw [List.foldlM_cons] at h
    simp only [Option.bind_eq_bind, Option.bind_eq_some] at h
    obtain ⟨st1, h1, h2⟩ := h
    exact ih st1 st' h2 (optStep_inv h1 hi)

/-- Claim C6: whenever the optimizer finishes with some best_parameters, its
total_return is the tracked best_return, at least the return of every
evaluated grid pair, and the best pair is the first one in iteration order
achieving that value: every result recorded before it is strictly smaller
(ties are broken in favor of the first pair, since the comparison is
strict). -/
theorem c6_best_is_max_first (data : List Bar) (f cap : ℚ) (st : OptState)
    (bp : BestParams) (h : find_optimal_state data f cap = some st)
    (hbp : st.best_params = some bp) :
    st.best_return = some bp.performance.total_return ∧
    (∀ r ∈ st.results, r.ret ≤ bp.performance.total_return) ∧
    ∃ l1 l2,
      st.results = l1 ++ (⟨bp.short_period, bp.long_period,
        bp.performance.total_return, bp.performance.win_rate,
        bp.performance.total_trades⟩ : OptResult) :: l2 ∧
      ∀ r ∈ l1, r.ret < bp.performance.total_return := by
  rw [find_optimal_state] at h
  have hinv : OptInv st :=
    foldlM_optStep_inv (train_data data f) cap maGrid _ st h
      (Or.inl ⟨rfl, rfl, rfl⟩)
  have hinv2 := hinv
  rcases hinv with ⟨h1, _, _⟩ | ⟨bp2, l1, l2, hbp2, hbr, hres, hl1, _⟩
  · rw [hbp] at h1
    cases h1
  · rw [hbp] at hbp2
    injection hbp2 with hbp2
    subst hbp2
    exact ⟨hbr, optInv_le hinv2 hbr, l1, l2, hres, hl1⟩

/-- Witness for c6_best_is_max_first on the empty bar series, where the best
pair is the first grid entry (5, 20) with the zero-activity report. -/
theorem c6_best_is_max_first_witness :
    find_optimal_state [] (4/5) 10000 = some optDemoState ∧
    optDemoState.best_params = some ⟨5, 20, perf0⟩ ∧
    ∀ r ∈ optDemoState.results,
      r.ret ≤ (BestParams.mk 5 20 perf0).performance.total_return :=
  ⟨by decide, rfl,
    (c6_best_is_max_first [] (4/5) 10000 optDemoState ⟨5, 20, perf0⟩
      (by decide) rfl).2.1⟩

/-- Claim C7: the optimizer's best_parameters and all_results depend only on
the training slice: two bar series with identical training slices produce
identical selections, so no parameter choice ever looks at validation
data. -/
theorem c7_optimizer_train_only (d1 d2 : List Bar) (f cap : ℚ)
    (h : train_data d1 f = train_data d2 f) :
    (find_optimal_params d1 f cap).map OptimizationOutput.best_parameters
      = (find_optimal_params d2 f cap).map OptimizationOutput.best_parameters ∧
    (find_optimal_params d1 f cap).map OptimizationOutput.all_results
      = (find_optimal_params d2 f cap).map OptimizationOutput.all_results := by
  have hst : find_optimal_state d1 f cap = find_optimal_state d2 f cap := by
    rw [find_optimal_state, find_optimal_state, h]
  constructor <;>
    · simp only [find_optimal_params, Option.map_map, Function.comp_def]
      rw [hst]

/-- Witness for c7_optimizer_train_only on two series sharing the first bar
under a one-half split. -/
theorem c7_optimizer_train_only_witness :
    train_data demoBars (1/2) = train_data demoBarsAlt (1/2) ∧
    (find_optimal_params demoBars (1/2) 100).map OptimizationOutput.best_parameters
      = (find_optimal_params demoBarsAlt (1/2) 100).map
          OptimizationOutput.best_parameters :=
  ⟨by decide,
    (c7_optimizer_train_only demoBars demoBarsAlt (1/2) 100 (by decide)).1⟩

end IK
